import Mathlib

/-!
Verification development for the SubLing subdomain fuzzer.

Shallow embedding of the probing engine (src/core.py), the probe
functions (src/resolver.py) and the wordlist / persistence helpers
(src/utils.py).  The network environment is modelled as an oracle
(`Net`): each distinct call site of a raw network primitive is a
separate oracle field, so two independent calls for the same host
(e.g. the `getaddrinfo` behind `check_dns` and the one behind
`get_ip_address`) may legitimately answer differently, exactly as two
independent platform-resolver calls with separate timeouts may.
Raw failures (gaierror, timeouts, aiohttp client errors) are `Except`
error values.
-/

namespace SubLing

/-- Python exception classes that appear in the except clauses of the
probe functions and of save_results. -/
inductive PyExc
  | gaierror
  | timeoutError
  | clientError
  | valueError
  | otherExc
deriving DecidableEq

/-- A completed HTTP response as the code observes it: a status code and
the optional Content-Length header value (a raw string, as
response.headers.get returns it). -/
structure HttpResponse where
  status : Nat
  contentLength : Option String
deriving DecidableEq

/-- The network oracle: what the environment answers at each raw call
site.  dnsCheck is the getaddrinfo call inside check_dns; dnsIp the
separate getaddrinfo call inside get_ip_address (both answer the list
of resolved IPv4 address strings); httpGet is session.get inside
check_http, keyed by full URL; sizeGet is the session.get inside
get_content_size; bodyRead is the response.read() there, answering the
body length. -/
structure Net where
  dnsCheck : String → Except PyExc (List String)
  dnsIp : String → Except PyExc (List String)
  httpGet : String → Except PyExc HttpResponse
  sizeGet : String → Except PyExc HttpResponse
  bodyRead : String → Except PyExc Nat

/-- Models Python str.strip(): remove leading and trailing whitespace. -/
def pyStrip (s : String) : String :=
  ⟨((s.data.dropWhile Char.isWhitespace).reverse.dropWhile Char.isWhitespace).reverse⟩

/-- A nonempty all-digit character sequence read as a decimal number. -/
def digitsToNat? (l : List Char) : Option Nat :=
  if l = [] then none
  else if l.all Char.isDigit then
    some (l.foldl (fun n c => n * 10 + (c.toNat - 48)) 0)
  else none

/-- Models Python int(str) on its usual numeric forms: optional
surrounding whitespace, an optional sign, then decimal digits; any
other input raises ValueError, modelled as none. -/
def pyInt? (s : String) : Option Int :=
  match (pyStrip s).data with
  | '-' :: rest => (digitsToNat? rest).map (fun n => -(n : Int))
  | '+' :: rest => (digitsToNat? rest).map (fun n => (n : Int))
  | t => (digitsToNat? t).map (fun n => (n : Int))

/-- The URL string built in check_http and get_content_size. -/
def mkUrl (protocol host : String) : String := protocol ++ "://" ++ host

/-- resolver.get_ip_address: first resolved address, or none on empty
answer or on any failure or timeout (the except clause catches
everything). -/
def get_ip_address (net : Net) (host : String) : Option String :=
  match net.dnsIp host with
  | .ok (a :: _) => some a
  | .ok [] => none
  | .error _ => none

/-- resolver.check_dns: true iff the resolver call succeeds with a
nonempty answer; any error or timeout yields false. -/
def check_dns (net : Net) (host : String) : Bool :=
  match net.dnsCheck host with
  | .ok l => !l.isEmpty
  | .error _ => false

/-- The Content-Length handling inside check_http: headers.get, a
truthiness test (absent or empty header gives no size), then int()
with ValueError swallowed. -/
def parseContentLength (r : HttpResponse) : Option Int :=
  match r.contentLength with
  | none => none
  | some s => if s = "" then none else pyInt? s

/-- resolver.check_http: try https then http; any completed response on
a scheme (whatever its status) is returned at once; a raised error on a
scheme moves on to the next; both failing yields none. -/
def check_http (net : Net) (host : String) : Option (String × Nat × Option Int) :=
  match net.httpGet (mkUrl "https" host) with
  | .ok r => some ("https", r.status, parseContentLength r)
  | .error _ =>
    match net.httpGet (mkUrl "http" host) with
    | .ok r => some ("http", r.status, parseContentLength r)
    | .error _ => none

/-- resolver.get_content_size: re-issue a GET on the known protocol; a
present, parsable Content-Length header answers directly; otherwise
the body is read (its own timeout returning none); any raised error
yields none. -/
def get_content_size (net : Net) (host protocol : String) : Option Int :=
  match net.sizeGet (mkUrl protocol host) with
  | .error _ => none
  | .ok r =>
    match r.contentLength with
    | some s =>
      if s = "" then
        match net.bodyRead (mkUrl protocol host) with
        | .ok len => some (len : Int)
        | .error _ => none
      else
        match pyInt? s with
        | some n => some n
        | none =>
          match net.bodyRead (mkUrl protocol host) with
          | .ok len => some (len : Int)
          | .error _ => none
    | none =>
      match net.bodyRead (mkUrl protocol host) with
      | .ok len => some (len : Int)
      | .error _ => none

/-- A stored probe result: the 4-tuple (protocol, status, ip, size)
kept in SubdomainFuzzer.found_subdomains. -/
structure Entry where
  protocol : Option String
  status : Option Nat
  ip : Option String
  size : Option Int
deriving DecidableEq

/-- The host string built in process_worker: word.strip() + "." + domain. -/
def mkHost (domain word : String) : String := pyStrip word ++ "." ++ domain

/-- What processing one candidate does: the sequence of table writes it
performs (in order), the display_found calls it makes (entry plus the
update flag), and whether the secondary content-size fetch ran. -/
structure WordOutcome where
  writes : List (String × Entry)
  displays : List (String × Entry × Bool)
  sizeFetched : Bool
deriving DecidableEq

/-- The per-candidate pipeline of SubdomainFuzzer.process_worker
(core.py lines 124-164), for given mode flags. -/
def processWord (net : Net) (domain : String) (dnsOnly httpOnly : Bool)
    (word : String) : WordOutcome :=
  if httpOnly then
    match check_http net (mkHost domain word) with
    | some (proto, status, sizeO) =>
      match sizeO with
      | some n =>
        { writes := [(mkHost domain word,
            ⟨some proto, some status, get_ip_address net (mkHost domain word), some n⟩)]
          displays := [(mkHost domain word,
            ⟨some proto, some status, get_ip_address net (mkHost domain word), some n⟩, false)]
          sizeFetched := false }
      | none =>
        match get_content_size net (mkHost domain word) proto with
        | some m =>
          { writes := [(mkHost domain word,
              ⟨some proto, some status, get_ip_address net (mkHost domain word), none⟩),
              (mkHost domain word,
              ⟨some proto, some status, get_ip_address net (mkHost domain word), some m⟩)]
            displays := [(mkHost domain word,
              ⟨some proto, some status, get_ip_address net (mkHost domain word), none⟩, false),
              (mkHost domain word,
              ⟨some proto, some status, get_ip_address net (mkHost domain word), some m⟩, true)]
            sizeFetched := true }
        | none =>
          { writes := [(mkHost domain word,
              ⟨some proto, some status, get_ip_address net (mkHost domain word), none⟩)]
            displays := [(mkHost domain word,
              ⟨some proto, some status, get_ip_address net (mkHost domain word), none⟩, false)]
            sizeFetched := true }
    | none => { writes := [], displays := [], sizeFetched := false }
  else
    if check_dns net (mkHost domain word) then
      if dnsOnly then
        { writes := [(mkHost domain word,
            ⟨none, none, get_ip_address net (mkHost domain word), none⟩)]
          displays := [(mkHost domain word,
            ⟨none, none, get_ip_address net (mkHost domain word), none⟩, false)]
          sizeFetched := false }
      else
        match check_http net (mkHost domain word) with
        | some (proto, status, sizeO) =>
          match sizeO with
          | some n =>
            { writes := [(mkHost domain word,
                ⟨some proto, some status, get_ip_address net (mkHost domain word), some n⟩)]
              displays := [(mkHost domain word,
                ⟨some proto, some status, get_ip_address net (mkHost domain word), some n⟩, false)]
              sizeFetched := false }
          | none =>
            match get_content_size net (mkHost domain word) proto with
            | some m =>
              { writes := [(mkHost domain word,
                  ⟨some proto, some status, get_ip_address net (mkHost domain word), none⟩),
                  (mkHost domain word,
                  ⟨some proto, some status, get_ip_address net (mkHost domain word), some m⟩)]
                displays := [(mkHost domain word,
                  ⟨some proto, some status, get_ip_address net (mkHost domain word), none⟩, false),
                  (mkHost domain word,
                  ⟨some proto, some status, get_ip_address net (mkHost domain word), some m⟩, true)]
                sizeFetched := true }
            | none =>
              { writes := [(mkHost domain word,
                  ⟨some proto, some status, get_ip_address net (mkHost domain word), none⟩)]
                displays := [(mkHost domain word,
                  ⟨some proto, some status, get_ip_address net (mkHost domain word), none⟩, false)]
                sizeFetched := true }
        | none =>
          { writes := [(mkHost domain word,
              ⟨none, none, get_ip_address net (mkHost domain word), none⟩)]
            displays := [(mkHost domain word,
              ⟨none, none, get_ip_address net (mkHost domain word), none⟩, false)]
            sizeFetched := false }
    else { writes := [], displays := [], sizeFetched := false }

/-- The shared run state a worker mutates: the result table
(found_subdomains) and the processed-candidate counter (checked_count). -/
structure FuzzState where
  table : String → Option Entry
  checked : Nat

/-- One dict assignment found_subdomains[h] = e. -/
def tset (t : String → Option Entry) (h : String) (e : Entry) :
    String → Option Entry :=
  fun h' => if h' = h then some e else t h'

/-- Apply a sequence of table writes in order. -/
def applyWrites (t : String → Option Entry) (ws : List (String × Entry)) :
    String → Option Entry :=
  ws.foldl (fun t p => tset t p.1 p.2) t

/-- The pipeline body as the worker's try block sees it: an
Except-valued computation.  The translated pipeline never raises (every
probe function catches its own errors internally), which the ok
constructor records. -/
def pipelineBody (net : Net) (domain : String) (dnsOnly httpOnly : Bool)
    (word : String) : Except PyExc (List (String × Entry)) :=
  .ok (processWord net domain dnsOnly httpOnly word).writes

/-- One iteration of the worker loop on a dequeued candidate: bump
checked_count, then run the (abstract) pipeline body under the
try/except Exception: pass of core.py lines 124-166 — an exception
leaves the table untouched and the loop continues. -/
def catchStep (body : String → Except PyExc (List (String × Entry)))
    (st : FuzzState) (w : String) : FuzzState :=
  match body w with
  | .ok ws => { table := applyWrites st.table ws, checked := st.checked + 1 }
  | .error _ => { table := st.table, checked := st.checked + 1 }

/-- The worker loop draining a sequence of candidates. -/
def runLoop (body : String → Except PyExc (List (String × Entry)))
    (ws : List String) (st : FuzzState) : FuzzState :=
  ws.foldl (catchStep body) st

/-- Fresh run state. -/
def initState : FuzzState := { table := fun _ => none, checked := 0 }

/-- A complete drain of the queue: the candidates are handed to workers
in some interleaving, each processed exactly once by the real pipeline. -/
def runWords (net : Net) (domain : String) (dnsOnly httpOnly : Bool)
    (ws : List String) : FuzzState :=
  runLoop (pipelineBody net domain dnsOnly httpOnly) ws initState

/-- SubdomainFuzzer.__init__ clamping of the worker count and the
derived progress-update interval: workers = max(1, int(workers)),
status_update_interval = max(1, workers // 10).  Python // is floor
division, Int.fdiv here. -/
structure FuzzerCfg where
  workers : Int
  statusUpdateInterval : Int
deriving DecidableEq

/-- Construct the configuration exactly as __init__ does. -/
def initCfg (workers : Int) : FuzzerCfg :=
  { workers := max 1 workers
    statusUpdateInterval := max 1 ((max 1 workers).fdiv 10) }

/-- Errors load_wordlist raises: FileNotFoundError, or ValueError for
an empty (all-blank) wordlist. -/
inductive LoadError
  | notFound
  | emptyWordlist
deriving DecidableEq

/-- The usable words of a file content: each line stripped, blank lines
skipped, order preserved — the list comprehension of utils.py line 7. -/
def wordsOf (lines : List String) : List String :=
  (lines.map pyStrip).filter (fun s => !(s = ""))

/-- utils.load_wordlist over a file system modelled as a partial map
from path to the file content as a list of lines (none = no such file). -/
def load_wordlist (fs : String → Option (List String)) (filepath : String) :
    Except LoadError (List String) :=
  match fs filepath with
  | none => .error .notFound
  | some lines =>
    match wordsOf lines with
    | [] => .error .emptyWordlist
    | w :: ws => .ok (w :: ws)

/-- SubdomainFuzzer.run up to the point the pool starts: a failing
load_wordlist is caught and the method returns at once — no session,
no queue, no workers, no network call; otherwise the queue is drained
as runWords describes. -/
def runMain (fs : String → Option (List String)) (net : Net)
    (filepath domain : String) (dnsOnly httpOnly : Bool) : Option FuzzState :=
  match load_wordlist fs filepath with
  | .error _ => none
  | .ok ws => some (runWords net domain dnsOnly httpOnly ws)

/-- A Python value as it occurs in a stored result tuple. -/
inductive PyVal
  | vNone
  | vStr (s : String)
  | vInt (n : Int)
deriving DecidableEq

/-- Python truthiness of such a value. -/
def pyTruthy : PyVal → Bool
  | .vNone => false
  | .vStr s => !(s = "")
  | .vInt n => !(n = 0)

/-- Python str() of such a value, as f-string interpolation renders it. -/
def pyStr : PyVal → String
  | .vNone => "None"
  | .vStr s => s
  | .vInt n => toString n

/-- The Python tuple the fuzzer actually stores for a host: the
4-tuple (protocol, status, ip, size) of core.py. -/
def entryToPy (e : Entry) : List PyVal :=
  [match e.protocol with | none => .vNone | some s => .vStr s,
   match e.status with | none => .vNone | some n => .vInt (n : Int),
   match e.ip with | none => .vNone | some s => .vStr s,
   match e.size with | none => .vNone | some n => .vInt n]

/-- Tuple unpacking against the 3-name pattern (proto, status, ip) of
utils.save_results: a tuple of any other length raises ValueError. -/
def unpack3 : List PyVal → Except PyExc (PyVal × PyVal × PyVal)
  | [a, b, c] => .ok (a, b, c)
  | _ => .error .valueError

/-- One output line of save_results (newline included). -/
def formatLine (subdomain : String) (proto status ip : PyVal) : String :=
  if pyTruthy proto then
    subdomain ++ " [" ++ pyStr proto ++ "] [" ++ pyStr status ++ "]\n"
  else if pyTruthy ip then
    subdomain ++ " [DNS] [" ++ pyStr ip ++ "]\n"
  else
    subdomain ++ " [DNS]\n"

/-- Insert one (host, tuple) pair into a key-sorted list. -/
def insertSorted (p : String × List PyVal) :
    List (String × List PyVal) → List (String × List PyVal)
  | [] => [p]
  | q :: rest => if p.1 < q.1 then p :: q :: rest else q :: insertSorted p rest

/-- sorted(found_subdomains.items()): the items in ascending key order
(keys of a dict are unique, so the tuple values are never compared). -/
def sortByKey (items : List (String × List PyVal)) :
    List (String × List PyVal) :=
  items.foldl (fun acc p => insertSorted p acc) []

/-- The write loop of save_results: unpack each value against the
3-name pattern and emit the formatted line; the first unpacking
failure propagates. -/
def saveLoop : List (String × List PyVal) → Except PyExc (List String)
  | [] => .ok []
  | (subdomain, v) :: rest =>
    match unpack3 v with
    | .error e => .error e
    | .ok (proto, status, ip) =>
      match saveLoop rest with
      | .error e => .error e
      | .ok ls => .ok (formatLine subdomain proto status ip :: ls)

/-- The failure save_results surfaces: raise IOError(...). -/
inductive SaveError
  | ioError
deriving DecidableEq

/-- utils.save_results: sort the items by host, write one line per
item; any exception inside the body (including the ValueError from
unpacking a 4-tuple) is caught and re-raised as IOError. -/
def save_results (found : List (String × List PyVal)) :
    Except SaveError (List String) :=
  match saveLoop (sortByKey found) with
  | .ok ls => .ok ls
  | .error _ => .error .ioError

/-! Shared helper lemmas. -/

/-- Each loop iteration bumps checked_count exactly once, whatever the
body does. -/
lemma runLoop_checked (body : String → Except PyExc (List (String × Entry)))
    (ws : List String) (st : FuzzState) :
    (runLoop body ws st).checked = st.checked + ws.length := by
  induction ws generalizing st with
  | nil => simp [runLoop]
  | cons w rest ih =>
    show (runLoop body rest (catchStep body st w)).checked = _
    rw [ih]
    have : (catchStep body st w).checked = st.checked + 1 := by
      unfold catchStep
      cases body w <;> simp
    rw [this]
    simp [List.length_cons]
    omega

/-- A property of bindings preserved by a batch of writes all
satisfying it. -/
lemma applyWrites_inv (P : String → Entry → Prop)
    (ws : List (String × Entry)) (hws : ∀ p ∈ ws, P p.1 p.2)
    (t : String → Option Entry) (ht : ∀ h e, t h = some e → P h e) :
    ∀ h e, applyWrites t ws h = some e → P h e := by
  induction ws generalizing t with
  | nil => simpa [applyWrites] using ht
  | cons p rest ih =>
    intro h e hlook
    refine ih (fun q hq => hws q (List.mem_cons_of_mem _ hq)) (tset t p.1 p.2)
      ?_ h e hlook
    intro h' e' hset
    unfold tset at hset
    by_cases hcase : h' = p.1
    · simp [hcase] at hset
      subst hset
      subst hcase
      exact hws p (List.mem_cons_self _ _)
    · simp [hcase] at hset
      exact ht h' e' hset

/-- Any binding of the table after the real pipeline drained the queue
satisfies any property that every per-candidate write satisfies. -/
lemma runWords_table_inv (P : String → Entry → Prop) (net : Net)
    (domain : String) (dnsOnly httpOnly : Bool)
    (hP : ∀ w p, p ∈ (processWord net domain dnsOnly httpOnly w).writes → P p.1 p.2)
    (ws : List String) :
    ∀ h e, (runWords net domain dnsOnly httpOnly ws).table h = some e → P h e := by
  suffices hgen : ∀ ws (st : FuzzState), (∀ h e, st.table h = some e → P h e) →
      ∀ h e, (runLoop (pipelineBody net domain dnsOnly httpOnly) ws st).table h
        = some e → P h e by
    exact hgen ws initState (by intro h e hcontr; simp [initState] at hcontr)
  intro ws
  induction ws with
  | nil => intro st hst; simpa [runLoop] using hst
  | cons w rest ih =>
    intro st hst h e hlook
    refine ih (catchStep (pipelineBody net domain dnsOnly httpOnly) st w) ?_ h e hlook
    intro h' e' hset
    unfold catchStep pipelineBody at hset
    simp at hset
    exact applyWrites_inv P _ (hP w) st.table hst h' e' hset

/-- Every write a candidate performs is to its own derived host, and
carries either a set protocol or happens under a successful DNS
existence check. -/
lemma processWord_writes_prop (net : Net) (domain : String)
    (dnsOnly httpOnly : Bool) (w : String) :
    ∀ p ∈ (processWord net domain dnsOnly httpOnly w).writes,
      p.1 = mkHost domain w ∧
      (p.2.protocol.isSome = true ∨ check_dns net (mkHost domain w) = true) := by
  intro p hp
  unfold processWord at hp
  repeat' split at hp
  all_goals simp only [List.mem_cons, List.not_mem_nil, or_false] at hp
  all_goals try rcases hp with hp | hp
  all_goals try subst hp
  all_goals refine ⟨rfl, ?_⟩
  all_goals simp_all

/-! Concrete mock networks used as witnesses. -/

/-- A network where every raw call fails. -/
def netAllFail : Net :=
  { dnsCheck := fun _ => .error .gaierror
    dnsIp := fun _ => .error .gaierror
    httpGet := fun _ => .error .clientError
    sizeGet := fun _ => .error .clientError
    bodyRead := fun _ => .error .timeoutError }

/-- A network where the DNS existence check resolves but the separate
IP lookup times out and HTTP is unreachable. -/
def netDnsIpFail : Net :=
  { dnsCheck := fun _ => .ok ["93.184.216.34"]
    dnsIp := fun _ => .error .timeoutError
    httpGet := fun _ => .error .clientError
    sizeGet := fun _ => .error .clientError
    bodyRead := fun _ => .error .timeoutError }

/-- A network where DNS resolves and HTTPS answers 200 with a
Content-Length header of 512. -/
def netHttpsOk : Net :=
  { dnsCheck := fun _ => .ok ["1.2.3.4"]
    dnsIp := fun _ => .ok ["1.2.3.4"]
    httpGet := fun _ => .ok { status := 200, contentLength := some "512" }
    sizeGet := fun _ => .ok { status := 200, contentLength := some "512" }
    bodyRead := fun _ => .ok 37 }

/-- A network where the HTTPS attempt raises a connection error and the
HTTP attempt answers 404 with no Content-Length header; the body read
answers 37 bytes. -/
def netHttpFallback : Net :=
  { dnsCheck := fun _ => .ok ["1.2.3.4"]
    dnsIp := fun _ => .ok ["1.2.3.4"]
    httpGet := fun url =>
      if url = mkUrl "https" "admin.example.com" then .error .clientError
      else .ok { status := 404, contentLength := none }
    sizeGet := fun _ => .ok { status := 404, contentLength := none }
    bodyRead := fun _ => .ok 37 }

/-- A pipeline body that always raises, for exercising the worker
loop's exception handling. -/
def badBody : String → Except PyExc (List (String × Entry)) :=
  fun _ => .error .otherExc

/-! Mock file systems used as witnesses. -/

/-- A file system with no files at all. -/
def fsNone : String → Option (List String) := fun _ => none

/-- A file system holding one all-blank wordlist. -/
def fsBlank : String → Option (List String) :=
  fun p => if p = "words.txt" then some ["   ", "", "\t"] else none

/-- A file system holding a wordlist with exactly one usable line. -/
def fsOne : String → Option (List String) :=
  fun p => if p = "w.txt" then some ["", " www ", ""] else none

/-! The claims. -/

/-- Claim C9: check_dns and get_ip_address are total for every host
and every environment behavior: check_dns answers true exactly when
the raw resolver call returns a nonempty address list, false on any
error or timeout; get_ip_address answers the first address, and none
on an empty answer or any error or timeout.  Neither propagates an
exception: both are total functions of the oracle. -/
theorem c9_resolver_totality (net : Net) (host : String) :
    (∀ e, net.dnsCheck host = .error e → check_dns net host = false) ∧
    (check_dns net host = true ↔ ∃ a rest, net.dnsCheck host = .ok (a :: rest)) ∧
    (∀ a rest, net.dnsIp host = .ok (a :: rest) → get_ip_address net host = some a) ∧
    (net.dnsIp host = .ok [] → get_ip_address net host = none) ∧
    (∀ e, net.dnsIp host = .error e → get_ip_address net host = none) := by
  refine ⟨?_, ?_, ?_, ?_, ?_⟩
  · intro e he
    unfold check_dns
    rw [he]
  · unfold check_dns
    cases hc : net.dnsCheck host with
    | error e => simp
    | ok l =>
      cases l with
      | nil => simp
      | cons a rest => simp
  · intro a rest ha
    unfold get_ip_address
    rw [ha]
  · intro ha
    unfold get_ip_address
    rw [ha]
  · intro e he
    unfold get_ip_address
    rw [he]

/-- Witness for C9 at concrete networks: a failing resolver answers
false / none, a successful one answers true / the first address. -/
theorem c9_resolver_totality_witness :
    check_dns netAllFail "www.example.com" = false ∧
    get_ip_address netAllFail "www.example.com" = none ∧
    get_ip_address netHttpsOk "www.example.com" = some "1.2.3.4" := by
  refine ⟨?_, ?_, ?_⟩
  · exact (c9_resolver_totality netAllFail "www.example.com").1 .gaierror rfl
  · exact (c9_resolver_totality netAllFail "www.example.com").2.2.2.2 .gaierror rfl
  · exact (c9_resolver_totality netHttpsOk "www.example.com").2.2.1 "1.2.3.4" [] rfl

/-- Claim C10: __init__ clamps the worker count to max(1, workers) for
every integer argument, so the derived progress interval
max(1, workers // 10) is at least 1 and the modulo in the progress
check never divides by zero. -/
theorem c10_workers_clamped (w : Int) :
    1 ≤ (initCfg w).workers ∧ 1 ≤ (initCfg w).statusUpdateInterval ∧
      (initCfg w).statusUpdateInterval ≠ 0 := by
  unfold initCfg
  refine ⟨le_max_left _ _, le_max_left _ _, ?_⟩
  have h1 : (1 : Int) ≤ max 1 ((max 1 w).fdiv 10) := le_max_left _ _
  exact ne_of_gt (lt_of_lt_of_le zero_lt_one h1)

/-- Claim C2 (code bug): save_results never writes a line for any
result map the fuzzer actually produces.  The engine stores 4-tuples
(protocol, status, ip, size) but save_results unpacks each value
against the 3-name pattern (proto, status, ip); the ValueError is
caught by the blanket except clause and re-raised as IOError, so the
save step fails on every nonempty run-produced map. -/
theorem c2_save_results_unpack_crash (h : String) (e : Entry) :
    save_results [(h, entryToPy e)] = .error .ioError := rfl

/-- Claim C1 counterexample: the invariant fails as stated.  When the
DNS existence check resolves but the separate IP lookup times out (two
independent resolver calls), the run stores an entry whose protocol
and ip are both absent. -/
theorem c1_counterexample_both_absent :
    (runWords netDnsIpFail "example.com" true false ["www"]).table "www.example.com"
      = some { protocol := none, status := none, ip := none, size := none } := by
  rfl

/-- Claim C1 (amended): for every host stored in the result table by a
completed run, either protocol is set or the DNS existence check for
that host succeeded; the ip field itself may still be absent when the
separate IP lookup failed or timed out after the existence check
succeeded. -/
theorem c1_stored_protocol_or_dns_checked (net : Net) (domain : String)
    (dnsOnly httpOnly : Bool) (events : List String) (host : String) (e : Entry)
    (hstored : (runWords net domain dnsOnly httpOnly events).table host = some e) :
    e.protocol.isSome = true ∨ check_dns net host = true := by
  refine runWords_table_inv
    (fun h e => e.protocol.isSome = true ∨ check_dns net h = true)
    net domain dnsOnly httpOnly ?_ events host e hstored
  intro w p hp
  obtain ⟨hkey, hprop⟩ := processWord_writes_prop net domain dnsOnly httpOnly w p hp
  rw [hkey]
  exact hprop

/-- Witness for the amended C1 at a concrete run. -/
theorem c1_stored_protocol_or_dns_checked_witness :
    Option.isSome (none : Option String) = true ∨
      check_dns netDnsIpFail "www.example.com" = true :=
  c1_stored_protocol_or_dns_checked netDnsIpFail "example.com" true false ["www"]
    "www.example.com" { protocol := none, status := none, ip := none, size := none }
    rfl

/-- Claim C3: for every run that completes normally — the queue hands
every supplied candidate to some worker exactly once, in whatever
interleaving the worker count produces — the processed-candidate
counter at completion equals the number of candidates supplied, and at
no intermediate point does it exceed that total.  The timeout policy
lives inside the network oracle and the interleaving is an arbitrary
permutation, so neither affects the count. -/
theorem c3_checked_count_complete (net : Net) (domain : String)
    (dnsOnly httpOnly : Bool) (events words : List String)
    (hperm : events.Perm words) :
    (runWords net domain dnsOnly httpOnly events).checked = words.length ∧
    ∀ n, (runWords net domain dnsOnly httpOnly (events.take n)).checked
        ≤ words.length := by
  have hlen : events.length = words.length := hperm.length_eq
  constructor
  · show (runLoop _ events initState).checked = _
    rw [runLoop_checked]
    simp [initState, hlen]
  · intro n
    show (runLoop _ (events.take n) initState).checked ≤ _
    rw [runLoop_checked]
    simp only [initState, Nat.zero_add, List.length_take]
    omega

/-- Witness for C3: two candidates drained in swapped order still give
a final count of 2. -/
theorem c3_checked_count_complete_witness :
    (runWords netDnsIpFail "example.com" true false ["api", "www"]).checked = 2 ∧
    (runWords netDnsIpFail "example.com" true false
        (List.take 1 ["api", "www"])).checked ≤ 2 := by
  have h := c3_checked_count_complete netDnsIpFail "example.com" true false
    ["api", "www"] ["www", "api"] (List.Perm.swap "www" "api" [])
  exact ⟨h.1, h.2 1⟩

/-- Claim C4: in default (full) mode, a candidate whose DNS existence
check fails stores no entry and produces no found-line output; when
DNS succeeds and dns_only is set, the entry (none, none, ip, none) is
stored; when DNS succeeds but the HTTP probe fails, the same
DNS-only entry is stored. -/
theorem c4_full_mode_pipeline (net : Net) (domain : String) (dnsOnly : Bool)
    (w : String) :
    (check_dns net (mkHost domain w) = false →
      processWord net domain dnsOnly false w
        = { writes := [], displays := [], sizeFetched := false }) ∧
    (check_dns net (mkHost domain w) = true → dnsOnly = true →
      processWord net domain dnsOnly false w
        = { writes := [(mkHost domain w,
              { protocol := none, status := none,
                ip := get_ip_address net (mkHost domain w), size := none })]
            displays := [(mkHost domain w,
              { protocol := none, status := none,
                ip := get_ip_address net (mkHost domain w), size := none }, false)]
            sizeFetched := false }) ∧
    (check_dns net (mkHost domain w) = true → dnsOnly = false →
      check_http net (mkHost domain w) = none →
      processWord net domain dnsOnly false w
        = { writes := [(mkHost domain w,
              { protocol := none, status := none,
                ip := get_ip_address net (mkHost domain w), size := none })]
            displays := [(mkHost domain w,
              { protocol := none, status := none,
                ip := get_ip_address net (mkHost domain w), size := none }, false)]
            sizeFetched := false }) := by
  refine ⟨?_, ?_, ?_⟩
  · intro hdns
    simp [processWord, hdns]
  · intro hdns hdo
    subst hdo
    simp [processWord, hdns]
  · intro hdns hdo hhttp
    subst hdo
    simp [processWord, hdns, hhttp]

/-- Witness for C4 at concrete networks: DNS failure skips silently;
DNS success stores the DNS-only entry both under dns_only and when
HTTP is unreachable (Scenario A shape). -/
theorem c4_full_mode_pipeline_witness :
    processWord netAllFail "example.com" false false "www"
        = { writes := [], displays := [], sizeFetched := false } ∧
    processWord netDnsIpFail "example.com" true false "www"
        = { writes := [("www.example.com",
              { protocol := none, status := none, ip := none, size := none })]
            displays := [("www.example.com",
              { protocol := none, status := none, ip := none, size := none }, false)]
            sizeFetched := false } ∧
    processWord netDnsIpFail "example.com" false false "www"
        = { writes := [("www.example.com",
              { protocol := none, status := none, ip := none, size := none })]
            displays := [("www.example.com",
              { protocol := none, status := none, ip := none, size := none }, false)]
            sizeFetched := false } := by
  refine ⟨?_, ?_, ?_⟩
  · exact (c4_full_mode_pipeline netAllFail "example.com" false "www").1 rfl
  · exact (c4_full_mode_pipeline netDnsIpFail "example.com" true "www").2.1 rfl rfl
  · exact (c4_full_mode_pipeline netDnsIpFail "example.com" false "www").2.2 rfl rfl rfl

/-- Claim C5: check_http attempts https first and falls back to http
only when the https attempt raises; any completed response on either
scheme (whatever its status) is returned at once; the returned size is
the parsed Content-Length header when present and parsable, none
otherwise. -/
theorem c5_check_http_https_first (net : Net) (host : String) :
    (∀ r, net.httpGet (mkUrl "https" host) = .ok r →
      check_http net host = some ("https", r.status, parseContentLength r)) ∧
    (∀ e r, net.httpGet (mkUrl "https" host) = .error e →
      net.httpGet (mkUrl "http" host) = .ok r →
      check_http net host = some ("http", r.status, parseContentLength r)) ∧
    (∀ e e', net.httpGet (mkUrl "https" host) = .error e →
      net.httpGet (mkUrl "http" host) = .error e' →
      check_http net host = none) ∧
    (∀ r s n, r.contentLength = some s → pyInt? s = some n →
      parseContentLength r = some n) ∧
    (∀ r s, r.contentLength = some s → pyInt? s = none →
      parseContentLength r = none) ∧
    (∀ r, r.contentLength = none → parseContentLength r = none) := by
  refine ⟨?_, ?_, ?_, ?_, ?_, ?_⟩
  · intro r hr
    simp [check_http, hr]
  · intro e r he hr
    simp [check_http, he, hr]
  · intro e e' he he'
    simp [check_http, he, he']
  · intro r s n hs hn
    have hne : ¬(s = "") := by
      intro hcontr
      subst hcontr
      simp [pyInt?, pyStrip, digitsToNat?] at hn
    simp [parseContentLength, hs, hne, hn]
  · intro r s hs hn
    by_cases hne : s = ""
    · simp [parseContentLength, hs, hne]
    · simp [parseContentLength, hs, hne, hn]
  · intro r hr
    simp [parseContentLength, hr]

/-- Witness for C5: an https 200 with Content-Length 512 is returned
from the https attempt; a raising https attempt falls back to an http
404 without a header (size none); two raising attempts give none. -/
theorem c5_check_http_https_first_witness :
    check_http netHttpsOk "admin.example.com" = some ("https", 200, some 512) ∧
    check_http netHttpFallback "admin.example.com" = some ("http", 404, none) ∧
    check_http netAllFail "admin.example.com" = none := by
  refine ⟨?_, ?_, ?_⟩
  · exact (c5_check_http_https_first netHttpsOk "admin.example.com").1
      { status := 200, contentLength := some "512" } rfl
  · exact (c5_check_http_https_first netHttpFallback "admin.example.com").2.1
      .clientError { status := 404, contentLength := none } rfl rfl
  · exact (c5_check_http_https_first netAllFail "admin.example.com").2.2.1
      .clientError .clientError rfl rfl

/-- Claim C6: when the HTTP probe returns a size (Content-Length
present), the candidate stores exactly one table entry and the
secondary content-size fetch never runs; when the size is absent, the
entry is stored once provisionally (size none) and updated at most
once more with the enriched size; and a candidate only ever writes its
own derived host, so after its last write the entry is untouched for
the rest of the run. -/
theorem c6_single_store_and_enrichment (net : Net) (domain : String)
    (w : String) :
    (∀ proto status n, check_http net (mkHost domain w) = some (proto, status, some n) →
      (processWord net domain false true w).writes
          = [(mkHost domain w,
              { protocol := some proto, status := some status,
                ip := get_ip_address net (mkHost domain w), size := some n })] ∧
        (processWord net domain false true w).sizeFetched = false) ∧
    (∀ proto status n, check_dns net (mkHost domain w) = true →
      check_http net (mkHost domain w) = some (proto, status, some n) →
      (processWord net domain false false w).writes
          = [(mkHost domain w,
              { protocol := some proto, status := some status,
                ip := get_ip_address net (mkHost domain w), size := some n })] ∧
        (processWord net domain false false w).sizeFetched = false) ∧
    (∀ proto status, check_http net (mkHost domain w) = some (proto, status, none) →
      get_content_size net (mkHost domain w) proto = none →
      (processWord net domain false true w).writes
          = [(mkHost domain w,
              { protocol := some proto, status := some status,
                ip := get_ip_address net (mkHost domain w), size := none })] ∧
        (processWord net domain false true w).sizeFetched = true) ∧
    (∀ proto status m, check_http net (mkHost domain w) = some (proto, status, none) →
      get_content_size net (mkHost domain w) proto = some m →
      (processWord net domain false true w).writes
          = [(mkHost domain w,
              { protocol := some proto, status := some status,
                ip := get_ip_address net (mkHost domain w), size := none }),
             (mkHost domain w,
              { protocol := some proto, status := some status,
                ip := get_ip_address net (mkHost domain w), size := some m })] ∧
        (processWord net domain false true w).sizeFetched = true) ∧
    (∀ (dnsOnly httpOnly : Bool) (w' : String) (p : String × Entry),
      p ∈ (processWord net domain dnsOnly httpOnly w').writes →
      p.1 = mkHost domain w') := by
  refine ⟨?_, ?_, ?_, ?_, ?_⟩
  · intro proto status n hhttp
    simp [processWord, hhttp]
  · intro proto status n hdns hhttp
    simp [processWord, hdns, hhttp]
  · intro proto status hhttp hsize
    simp [processWord, hhttp, hsize]
  · intro proto status m hhttp hsize
    simp [processWord, hhttp, hsize]
  · intro dnsOnly httpOnly w' p hp
    exact (processWord_writes_prop net domain dnsOnly httpOnly w' p hp).1

/-- Witness for C6 at concrete networks: Scenario B (https 200 with
Content-Length 512) stores once with no secondary fetch; Scenario C
shape (http 404 without a header, body 37 bytes) stores provisionally
then enriches once. -/
theorem c6_single_store_and_enrichment_witness :
    ((processWord netHttpsOk "example.com" false true "admin").writes
        = [("admin.example.com",
            { protocol := some "https", status := some 200,
              ip := some "1.2.3.4", size := some 512 })] ∧
      (processWord netHttpsOk "example.com" false true "admin").sizeFetched
        = false) ∧
    ((processWord netHttpFallback "example.com" false true "admin").writes
        = [("admin.example.com",
            { protocol := some "http", status := some 404,
              ip := some "1.2.3.4", size := none }),
           ("admin.example.com",
            { protocol := some "http", status := some 404,
              ip := some "1.2.3.4", size := some 37 })] ∧
      (processWord netHttpFallback "example.com" false true "admin").sizeFetched
        = true) := by
  constructor
  · exact (c6_single_store_and_enrichment netHttpsOk "example.com" "admin").1
      "https" 200 512 rfl
  · exact (c6_single_store_and_enrichment netHttpFallback "example.com" "admin").2.2.2.1
      "http" 404 37 rfl rfl

/-- Claim C7: the real per-candidate pipeline never raises (every probe
catches its own errors), and the worker loop's try/except means a
pipeline body that does raise on a candidate leaves the table exactly
as it was — the candidate is a non-match — while the loop goes on with
the remaining candidates instead of propagating the exception. -/
theorem c7_worker_catches_exceptions (net : Net) (domain : String)
    (dnsOnly httpOnly : Bool) :
    (∀ w, pipelineBody net domain dnsOnly httpOnly w
        = .ok (processWord net domain dnsOnly httpOnly w).writes) ∧
    (∀ (body : String → Except PyExc (List (String × Entry)))
        (st : FuzzState) (w : String) (rest : List String) (e : PyExc),
      body w = .error e →
        (catchStep body st w).table = st.table ∧
        runLoop body (w :: rest) st
          = runLoop body rest { table := st.table, checked := st.checked + 1 }) := by
  constructor
  · intro w
    rfl
  · intro body st w rest e hbody
    have hstep : catchStep body st w
        = { table := st.table, checked := st.checked + 1 } := by
      unfold catchStep
      rw [hbody]
    constructor
    · rw [hstep]
    · show runLoop body rest (catchStep body st w) = _
      rw [hstep]

/-- Witness for C7: a body raising on every candidate lets the loop
keep going and leaves the table empty. -/
theorem c7_worker_catches_exceptions_witness :
    (catchStep badBody initState "www").table = initState.table ∧
    runLoop badBody ["www", "api"] initState
      = runLoop badBody ["api"]
          { table := initState.table, checked := initState.checked + 1 } :=
  (c7_worker_catches_exceptions netAllFail "example.com" false false).2
    badBody initState "www" ["api"] .otherExc rfl

/-- Claim C8: load_wordlist fails with NotFound when the path does not
exist, with EmptyWordlist when no usable line remains after stripping
blank lines; otherwise it returns the ordered, nonempty sequence of
stripped labels; and a failing load makes run return before the pool
or the session is created, for every network whatsoever. -/
theorem c8_load_wordlist_spec (fs : String → Option (List String))
    (net : Net) (filepath domain : String) (dnsOnly httpOnly : Bool) :
    (fs filepath = none → load_wordlist fs filepath = .error .notFound) ∧
    (∀ lines, fs filepath = some lines → wordsOf lines = [] →
      load_wordlist fs filepath = .error .emptyWordlist ∧
      runMain fs net filepath domain dnsOnly httpOnly = none) ∧
    (∀ lines x xs, fs filepath = some lines → wordsOf lines = x :: xs →
      load_wordlist fs filepath = .ok (x :: xs) ∧
      ∀ y ∈ x :: xs, ¬(y = "") ∧ ∃ l ∈ lines, y = pyStrip l) := by
  refine ⟨?_, ?_, ?_⟩
  · intro hfs
    simp [load_wordlist, hfs]
  · intro lines hfs hwords
    refine ⟨by simp [load_wordlist, hfs, hwords], ?_⟩
    simp [runMain, load_wordlist, hfs, hwords]
  · intro lines x xs hfs hwords
    refine ⟨by simp [load_wordlist, hfs, hwords], ?_⟩
    intro y hy
    rw [← hwords] at hy
    unfold wordsOf at hy
    have h3 := List.mem_filter.mp hy
    obtain ⟨l, hl, hly⟩ := List.mem_map.mp h3.1
    have h4 : ¬(y = "") := by simpa using h3.2
    exact ⟨h4, l, hl, hly.symm⟩

/-- Witness for C8: a missing path, an all-blank wordlist (the run
returns at once, before any worker runs), and a wordlist with one
usable line surrounded by blanks. -/
theorem c8_load_wordlist_spec_witness :
    load_wordlist fsNone "missing.txt" = .error .notFound ∧
    (load_wordlist fsBlank "words.txt" = .error .emptyWordlist ∧
      runMain fsBlank netAllFail "words.txt" "example.com" false false = none) ∧
    load_wordlist fsOne "w.txt" = .ok ["www"] := by
  refine ⟨?_, ?_, ?_⟩
  · exact (c8_load_wordlist_spec fsNone netAllFail "missing.txt" "example.com"
      false false).1 rfl
  · exact (c8_load_wordlist_spec fsBlank netAllFail "words.txt" "example.com"
      false false).2.1 ["   ", "", "\t"] rfl rfl
  · exact ((c8_load_wordlist_spec fsOne netAllFail "w.txt" "example.com"
      false false).2.2 ["", " www ", ""] "www" [] rfl rfl).1

end SubLing
